import Mathlib

/-!
Verification of the udev-rs resource/iteration/error-handling core.

The native libudev service is visible to the wrapped code only through its
call contract (spec section 6): pointer-returning calls yield null or a valid
handle and communicate failure through the thread-local errno; linked lists
are chains of name/value nodes ended by a null next pointer; device handles
are reference counted.  We embed the Rust wrapper functions from
src/udev/{util,iterator,device,udev,monitor}.rs over explicit models of that
contract: pointers become `Option` values, the thread-local errno becomes an
explicitly threaded `Int`, a native call becomes a function from the errno it
sees to the pointer it returns together with the errno it leaves behind, and
the diverging out-of-memory abort becomes a distinguished outcome value.
-/

namespace UdevRs

/-- Linux `ENOMEM`, the out-of-memory errno sentinel used by `util.rs`. -/
def ENOMEM : Int := 12

/-- Linux `EINVAL`, used by `udev.rs` for contract-violation checks. -/
def EINVAL : Int := 22

/-- Outcome of a classified pointer-returning native call
(`util::check_errno_mut` / `util::check_errno` return
`Result<Option<ptr>, c_int>` in Rust; `oom()` diverges, which we make an
explicit `oomAbort` outcome instead of the function returning). -/
inductive CheckResult (α : Type) where
  | ok (v : Option α)
  | err (code : Int)
  | oomAbort
deriving DecidableEq, Repr

/-- `util::set_errno`: state transformer on the thread-local errno. -/
def set_errno (v : Int) (_s : Int) : Int := v

/-- `util::get_errno`: read the thread-local errno. -/
def get_errno (s : Int) : Int := s

/-- `util::check_errno_mut`.  A native call `f` is modelled as a function
from the errno it observes on entry to the pointer it returns (none = null)
paired with the errno it leaves.  Mirrors util.rs lines 65-78:
clear errno, call, classify null by the errno left behind
(`ENOMEM` aborts, `0` is not-found, anything else is a system error). -/
def check_errno_mut {α : Type} (f : Int → Option α × Int) (errno0 : Int) :
    CheckResult α × Int :=
  let errno1 := set_errno 0 errno0
  let r := f errno1
  match r.1 with
  | some p => (CheckResult.ok (some p), r.2)
  | none =>
      let e := get_errno r.2
      if e = ENOMEM then (CheckResult.oomAbort, r.2)
      else if e = 0 then (CheckResult.ok none, r.2)
      else (CheckResult.err e, r.2)

/-- `util::check_errno` (util.rs lines 80-93): identical to
`check_errno_mut` except that the wrapped call returns a `*const` rather
than a `*mut` pointer, a distinction that vanishes in the model. -/
def check_errno {α : Type} (f : Int → Option α × Int) (errno0 : Int) :
    CheckResult α × Int :=
  let errno1 := set_errno 0 errno0
  let r := f errno1
  match r.1 with
  | some p => (CheckResult.ok (some p), r.2)
  | none =>
      let e := get_errno r.2
      if e = ENOMEM then (CheckResult.oomAbort, r.2)
      else if e = 0 then (CheckResult.ok none, r.2)
      else (CheckResult.err e, r.2)

/-- C1: the pointer-returning error classifier clears the thread-local errno
before the call (so its outcome is a function of the call's behaviour at
errno 0, independent of the errno on entry); a non-null result succeeds with
that pointer; a null result with errno 0 is `NotFound` (`Ok(None)`); a null
result with the out-of-memory code aborts; a null result with any other
nonzero errno is `SystemError` carrying exactly that code.  Stated for both
`check_errno_mut` and `check_errno`. -/
theorem C1_error_classifier (f : Int → Option Nat × Int) (e0 e1 : Int) :
    (check_errno_mut f e0 = check_errno_mut f e1 ∧
      check_errno f e0 = check_errno f e1) ∧
    (∀ p e, f 0 = (some p, e) →
      (check_errno_mut f e0).1 = CheckResult.ok (some p) ∧
      (check_errno f e0).1 = CheckResult.ok (some p)) ∧
    (∀ e, f 0 = (none, e) →
      (e = 0 → (check_errno_mut f e0).1 = CheckResult.ok none ∧
        (check_errno f e0).1 = CheckResult.ok none) ∧
      (e = ENOMEM → (check_errno_mut f e0).1 = CheckResult.oomAbort ∧
        (check_errno f e0).1 = CheckResult.oomAbort) ∧
      (e ≠ 0 → e ≠ ENOMEM →
        (check_errno_mut f e0).1 = CheckResult.err e ∧
        (check_errno f e0).1 = CheckResult.err e)) := by
  refine ⟨⟨rfl, rfl⟩, ?_, ?_⟩
  · intro p e hf
    simp [check_errno_mut, check_errno, set_errno, get_errno, hf]
  · intro e hf
    refine ⟨?_, ?_, ?_⟩
    · rintro rfl
      simp [check_errno_mut, check_errno, set_errno, get_errno, hf, ENOMEM]
    · rintro rfl
      simp [check_errno_mut, check_errno, set_errno, get_errno, hf]
    · intro h0 hM
      simp [check_errno_mut, check_errno, set_errno, get_errno, hf, h0, hM]

/-- Witness for C1 at a concrete call: a call that returns null and leaves
errno 5 classifies as a system error with code 5. -/
theorem C1_error_classifier_witness :
    (check_errno_mut (fun _ => ((none : Option Nat), (5 : Int))) 7).1 =
      CheckResult.err 5 ∧
    (check_errno (fun _ => ((none : Option Nat), (5 : Int))) 7).1 =
      CheckResult.err 5 :=
  ((C1_error_classifier (fun _ => (none, 5)) 7 0).2.2 5 rfl).2.2
    (by decide) (by decide)

/-! ### List iterator (src/udev/iterator.rs)

A native `udev_list_entry` pointer reaches a chain of nodes, each holding a
name (always present) and an optional value, ended by a null next pointer
(spec section 6, list protocol).  We model such a pointer as the Lean list
of the name/value pairs it reaches; the null pointer is the empty list. -/

/-- A native list-entry pointer: the chain of (name, optional value) nodes
it reaches; `[]` is the null pointer. -/
def udev_list_entry : Type := List (String × Option String)

/-- `udev_list_entry_get_name`: name of the node the pointer designates.
The source only calls this on a non-null pointer, for which the `""`
default is never used. -/
def udev_list_entry_get_name : udev_list_entry → String
  | [] => ""
  | (n, _) :: _ => n

/-- `udev_list_entry_get_value`: optional value of the designated node
(null value modelled as `none`). -/
def udev_list_entry_get_value : udev_list_entry → Option String
  | [] => none
  | (_, v) :: _ => v

/-- `udev_list_entry_get_next`: pointer to the node's successor, null at
the end of the chain. -/
def udev_list_entry_get_next : udev_list_entry → udev_list_entry
  | [] => []
  | _ :: t => t

/-- Null test on a list-entry pointer (`self.entry.is_null()`). -/
def udev_list_entry_is_null (e : udev_list_entry) : Bool :=
  match e with
  | [] => true
  | _ :: _ => false

/-- `iterator::UdevIterator`: the lifetime anchor (parent) plus the current
list-entry cursor. -/
structure UdevIterator (T : Type) where
  parent : T
  entry : udev_list_entry

/-- `iterator::iterator`: build an iterator from a parent and a head
pointer. -/
def iterator {T : Type} (parent : T) (entry : udev_list_entry) :
    UdevIterator T :=
  { parent := parent, entry := entry }

/-- `UdevIterator::next` (iterator.rs lines 40-54): if the cursor is null
the sequence is exhausted (`None`, cursor unchanged); otherwise yield
(parent, name, optional value) of the current node and advance the cursor
to the node's successor.  Returns the yielded item together with the
mutated iterator. -/
def UdevIterator.next {T : Type} (it : UdevIterator T) :
    Option (T × String × Option String) × UdevIterator T :=
  if udev_list_entry_is_null it.entry then
    (none, it)
  else
    (some (it.parent, udev_list_entry_get_name it.entry,
           udev_list_entry_get_value it.entry),
     { it with entry := udev_list_entry_get_next it.entry })

/-- Repeatedly call `next`, collecting the yielded items, for at most
`fuel` steps (the iterator is finite: `entry.length` steps suffice). -/
def UdevIterator.drain {T : Type} : Nat → UdevIterator T →
    List (T × String × Option String)
  | 0, _ => []
  | fuel + 1, it =>
      match it.next with
      | (none, _) => []
      | (some x, it') => x :: UdevIterator.drain fuel it'

/-- All items produced by iterating `it` to exhaustion via `next`. -/
def UdevIterator.toList {T : Type} (it : UdevIterator T) :
    List (T × String × Option String) :=
  UdevIterator.drain it.entry.length it

/-- Draining an iterator whose cursor reaches the chain `l` yields exactly
the nodes of `l` in order, each paired with the anchor. -/
theorem UdevIterator.drain_iterator {T : Type} (p : T)
    (l : List (String × Option String)) :
    UdevIterator.drain l.length (iterator p l) =
      l.map (fun nv => (p, nv.1, nv.2)) := by
  induction l with
  | nil => rfl
  | cons hd tl ih =>
      cases hd with
      | mk n v =>
          simpa [UdevIterator.drain, UdevIterator.next, iterator,
            udev_list_entry_is_null, udev_list_entry_get_name,
            udev_list_entry_get_value, udev_list_entry_get_next] using ih

/-- C2: iterating over a null head pointer yields zero items (and `next`
reports exhaustion without moving the cursor); iterating over a chain of k
nodes yields exactly k items in head-to-tail order, each carrying the
node's name and optional value (null value mapped to absent); and on a
non-null cursor each `next` call yields the current node and advances the
cursor to the node's successor. -/
theorem C2_list_iterator {T : Type} (p : T) (n : String) (v : Option String)
    (l t : List (String × Option String)) :
    (iterator p ([] : udev_list_entry)).next = (none, iterator p []) ∧
    (iterator p ([] : udev_list_entry)).toList = [] ∧
    (iterator p (l : udev_list_entry)).toList =
      l.map (fun nv => (p, nv.1, nv.2)) ∧
    (iterator p (l : udev_list_entry)).toList.length = l.length ∧
    (iterator p (((n, v) :: t : List (String × Option String)) :
        udev_list_entry)).next = (some (p, n, v), iterator p t) := by
  refine ⟨?_, ?_, ?_, ?_, ?_⟩
  · rfl
  · rfl
  · simpa [UdevIterator.toList, iterator] using
      UdevIterator.drain_iterator p l
  · simpa [UdevIterator.toList, iterator] using
      congrArg List.length (UdevIterator.drain_iterator p l)
  · rfl

/-! ### Device and context lookups (src/udev/device.rs, src/udev/udev.rs)

A native lookup call is passed in as its behaviour: a function from the
errno it observes to the device pointer it returns (none = null) and the
errno it leaves.  Device handles are bare naturals here; what each lookup
does with the classified outcome is exactly the Rust `match`. -/

/-- What a Rust function call does as seen by its caller: it returns a
value, or it never returns because the out-of-memory abort fired inside
the classified native call. -/
inductive RustRet (α : Type) where
  | value (a : α)
  | aborted
deriving DecidableEq, Repr

/-- `Device::parent` (device.rs lines 73-80): classify the native
`udev_device_ref(udev_device_get_parent(..))` call; `Ok(Some(dev))` wraps
the handle, every other returned outcome collapses to `None` (the `_`
pattern covers `Ok(None)` and `Err(_)`; the out-of-memory case diverges
inside the classifier and is propagated as `aborted`). -/
def Device.parent (f : Int → Option Nat × Int) (e0 : Int) :
    RustRet (Option Nat) :=
  match (check_errno_mut f e0).1 with
  | CheckResult.ok (some dev) => RustRet.value (some dev)
  | CheckResult.oomAbort => RustRet.aborted
  | _ => RustRet.value none

/-- `Device::parent_with_subsystem` (device.rs lines 83-94): same match as
`parent`, over the subsystem-filtered native lookup. -/
def Device.parent_with_subsystem (f : String → Int → Option Nat × Int)
    (subsystem : String) (e0 : Int) : RustRet (Option Nat) :=
  match (check_errno_mut (f subsystem) e0).1 with
  | CheckResult.ok (some dev) => RustRet.value (some dev)
  | CheckResult.oomAbort => RustRet.aborted
  | _ => RustRet.value none

/-- `Device::parent_with_subsystem_devtype` (device.rs lines 97-108): same
match, over the subsystem+devtype-filtered native lookup. -/
def Device.parent_with_subsystem_devtype
    (f : String → String → Int → Option Nat × Int)
    (subsystem devtype : String) (e0 : Int) : RustRet (Option Nat) :=
  match (check_errno_mut (f subsystem devtype) e0).1 with
  | CheckResult.ok (some dev) => RustRet.value (some dev)
  | CheckResult.oomAbort => RustRet.aborted
  | _ => RustRet.value none

/-- `Udev::device` (udev.rs lines 139-147): classify
`udev_device_new_from_syspath`; `Ok(Some(dev))` wraps, everything else
returned is `None`. -/
def Udev.device (new_from_syspath : String → Int → Option Nat × Int)
    (path : String) (e0 : Int) : RustRet (Option Nat) :=
  match (check_errno_mut (new_from_syspath path) e0).1 with
  | CheckResult.ok (some dev) => RustRet.value (some dev)
  | CheckResult.oomAbort => RustRet.aborted
  | _ => RustRet.value none

/-- `Udev::device_from_devnum` (udev.rs lines 150-157): same match over
`udev_device_new_from_devnum`; the device type is `'c'` or `'b'` and the
devnum a raw number. -/
def Udev.device_from_devnum
    (new_from_devnum : Char → Nat → Int → Option Nat × Int)
    (ty : Char) (devnum : Nat) (e0 : Int) : RustRet (Option Nat) :=
  match (check_errno_mut (new_from_devnum ty devnum) e0).1 with
  | CheckResult.ok (some dev) => RustRet.value (some dev)
  | CheckResult.oomAbort => RustRet.aborted
  | _ => RustRet.value none

/-- `Udev::device_from_subsystem_sysname` (udev.rs lines 160-171): same
match over `udev_device_new_from_subsystem_sysname`. -/
def Udev.device_from_subsystem_sysname
    (new_from_ss : String → String → Int → Option Nat × Int)
    (subsystem sysname : String) (e0 : Int) : RustRet (Option Nat) :=
  match (check_errno_mut (new_from_ss subsystem sysname) e0).1 with
  | CheckResult.ok (some dev) => RustRet.value (some dev)
  | CheckResult.oomAbort => RustRet.aborted
  | _ => RustRet.value none

/-- C5: each of the six optional-Entity lookups collapses both the
`NotFound` outcome (`Ok(None)`) and the `SystemError` outcome (`Err(code)`)
of its classified native call to `None`; the OS error code never reaches
the caller.  A wrapped device is returned exactly on the success outcome. -/
theorem C5_lookup_collapse (f : Int → Option Nat × Int)
    (fs : String → Int → Option Nat × Int)
    (fsd : String → String → Int → Option Nat × Int)
    (fp : String → Int → Option Nat × Int)
    (fn : Char → Nat → Int → Option Nat × Int)
    (fss : String → String → Int → Option Nat × Int)
    (subsystem devtype path sysname : String) (ty : Char) (devnum : Nat)
    (e0 : Int) :
    (∀ r, (r = CheckResult.ok (none : Option Nat) ∨ ∃ c, r = CheckResult.err c) →
      ((check_errno_mut f e0).1 = r → Device.parent f e0 = RustRet.value none) ∧
      ((check_errno_mut (fs subsystem) e0).1 = r →
        Device.parent_with_subsystem fs subsystem e0 = RustRet.value none) ∧
      ((check_errno_mut (fsd subsystem devtype) e0).1 = r →
        Device.parent_with_subsystem_devtype fsd subsystem devtype e0 =
          RustRet.value none) ∧
      ((check_errno_mut (fp path) e0).1 = r →
        Udev.device fp path e0 = RustRet.value none) ∧
      ((check_errno_mut (fn ty devnum) e0).1 = r →
        Udev.device_from_devnum fn ty devnum e0 = RustRet.value none) ∧
      ((check_errno_mut (fss subsystem sysname) e0).1 = r →
        Udev.device_from_subsystem_sysname fss subsystem sysname e0 =
          RustRet.value none)) ∧
    (∀ d, Device.parent f e0 = RustRet.value (some d) ↔
      (check_errno_mut f e0).1 = CheckResult.ok (some d)) := by
  constructor
  · rintro r (rfl | ⟨c, rfl⟩) <;>
      refine ⟨?_, ?_, ?_, ?_, ?_, ?_⟩ <;>
      intro h <;>
      simp [Device.parent, Device.parent_with_subsystem,
        Device.parent_with_subsystem_devtype, Udev.device,
        Udev.device_from_devnum, Udev.device_from_subsystem_sysname, h]
  · intro d
    rcases hr : (check_errno_mut f e0).1 with v | c
    · rcases v with _ | p <;> simp [Device.parent, hr]
    · simp [Device.parent, hr]
    · simp [Device.parent, hr]

/-- Witness for C5 at a concrete call: a native lookup failing with errno 3
is collapsed to `None` by `Device::parent`. -/
theorem C5_lookup_collapse_witness :
    Device.parent (fun _ => ((none : Option Nat), (3 : Int))) 0 =
      RustRet.value none :=
  ((C5_lookup_collapse (fun _ => (none, 3)) (fun _ _ => (none, 3))
      (fun _ _ _ => (none, 3)) (fun _ _ => (none, 3))
      (fun _ _ _ => (none, 3)) (fun _ _ _ => (none, 3))
      "s" "d" "p" "n" 'c' 0 0).1
    (CheckResult.err 3) (Or.inr ⟨3, rfl⟩)).1 (by decide)

/-! ### Attribute read and write (src/udev/device.rs lines 111-135) -/

/-- The `std::io::Error` values `Device::attribute` and
`Device::set_attribute` construct: `Error::new(ErrorKind::NotFound, "")`
or `Error::from_raw_os_error(code)`. -/
inductive IoErr where
  | notFound
  | rawOs (code : Int)
deriving DecidableEq, Repr

/-- `Device::attribute` (device.rs lines 111-120): classify the native
`udev_device_get_sysattr_value` call (behaviour passed in as a function of
the attribute name); success yields the attribute text (the native string
modelled directly as a `String`, null as `none`), `Ok(None)` becomes a
`NotFound` error, `Err(errno)` becomes a raw-OS error with that code. -/
def Device.attribute (get_sysattr_value : String → Int → Option String × Int)
    (attr : String) (e0 : Int) : RustRet (Except IoErr String) :=
  match (check_errno (get_sysattr_value attr) e0).1 with
  | CheckResult.ok (some val) => RustRet.value (Except.ok val)
  | CheckResult.ok none => RustRet.value (Except.error IoErr.notFound)
  | CheckResult.err errno => RustRet.value (Except.error (IoErr.rawOs errno))
  | CheckResult.oomAbort => RustRet.aborted

/-- The stub registry of spec section 8: device `/devices/virtual/net/lo`
has the single attribute `"flags"` with text `"73"`.  A missing attribute
is the legitimate not-found case of the handle protocol: null result with
errno left at 0. -/
def stubLoSysattr (attr : String) (_e : Int) : Option String × Int :=
  (if attr = "flags" then some "73" else none, 0)

/-- `Device::set_attribute` (device.rs lines 123-135), as a function of the
status the native `udev_device_set_sysattr_value` call returns: status 0
succeeds, a negative status `n` fails with the raw-OS error `-n`, and any
other (positive) status hits the `panic!` arm, modelled as `aborted`. -/
def Device.set_attribute (ret : Int) : RustRet (Except IoErr Unit) :=
  if ret = 0 then RustRet.value (Except.ok ())
  else if ret < 0 then RustRet.value (Except.error (IoErr.rawOs (-ret)))
  else RustRet.aborted

/-- C6: `attribute(name)` fails with `NotFound` exactly when the classified
native read yields `Ok(None)` (null result, errno 0), fails with a raw-OS
error carrying the code when the classifier yields `Err(code)`, and on
success returns the attribute's text; on the stub device
`/devices/virtual/net/lo` with `"flags" = "73"`, `attribute("flags")`
returns `"73"` and `attribute("missing")` returns `NotFound`. -/
theorem C6_attribute (g : String → Int → Option String × Int)
    (attr : String) (e0 : Int) :
    (Device.attribute g attr e0 = RustRet.value (Except.error IoErr.notFound) ↔
      (check_errno (g attr) e0).1 = CheckResult.ok none) ∧
    (∀ c, Device.attribute g attr e0 =
        RustRet.value (Except.error (IoErr.rawOs c)) ↔
      (check_errno (g attr) e0).1 = CheckResult.err c) ∧
    (∀ s, Device.attribute g attr e0 = RustRet.value (Except.ok s) ↔
      (check_errno (g attr) e0).1 = CheckResult.ok (some s)) ∧
    Device.attribute stubLoSysattr "flags" 0 = RustRet.value (Except.ok "73") ∧
    Device.attribute stubLoSysattr "missing" 0 =
      RustRet.value (Except.error IoErr.notFound) := by
  refine ⟨?_, ?_, ?_, ?_, ?_⟩
  · rcases hr : (check_errno (g attr) e0).1 with v | c
    · rcases v with _ | s <;> simp [Device.attribute, hr]
    · simp [Device.attribute, hr]
    · simp [Device.attribute, hr]
  · intro c
    rcases hr : (check_errno (g attr) e0).1 with v | c'
    · rcases v with _ | s <;> simp [Device.attribute, hr]
    · simp [Device.attribute, hr]
    · simp [Device.attribute, hr]
  · intro s
    rcases hr : (check_errno (g attr) e0).1 with v | c'
    · rcases v with _ | s' <;> simp [Device.attribute, hr]
    · simp [Device.attribute, hr]
    · simp [Device.attribute, hr]
  · rfl
  · rfl

/-- C7: `set_attribute` succeeds exactly on native status 0, fails with
the raw-OS error `-n` on a negative status `n`, and hits the loud
`panic!` arm (modelled as `aborted`) on any positive status. -/
theorem C7_set_attribute (n : Int) :
    (Device.set_attribute 0 = RustRet.value (Except.ok ())) ∧
    (Device.set_attribute n = RustRet.value (Except.ok ()) ↔ n = 0) ∧
    (n < 0 → Device.set_attribute n =
      RustRet.value (Except.error (IoErr.rawOs (-n)))) ∧
    (0 < n → Device.set_attribute n = RustRet.aborted) := by
  refine ⟨rfl, ?_, ?_, ?_⟩
  · constructor
    · intro h
      by_contra hn
      rcases lt_or_gt_of_ne hn with hlt | hgt
      · simp [Device.set_attribute, hn, hlt] at h
      · simp [Device.set_attribute, hn, not_lt.mpr (le_of_lt hgt)] at h
    · rintro rfl; rfl
  · intro hlt
    simp [Device.set_attribute, hlt, ne_of_lt hlt]
  · intro hgt
    simp [Device.set_attribute, ne_of_gt hgt, not_lt.mpr (le_of_lt hgt)]

/-- Witness for C6 at a concrete call: a read whose native call fails with
errno 17 surfaces the raw-OS error 17. -/
theorem C6_attribute_witness :
    Device.attribute (fun _ _ => ((none : Option String), (17 : Int))) "a" 0 =
      RustRet.value (Except.error (IoErr.rawOs 17)) :=
  ((C6_attribute (fun _ _ => (none, 17)) "a" 0).2.1 17).mpr (by decide)

/-- Witness for C7 at concrete statuses: status -9 fails with raw-OS error
9 and status 4 hits the loud abort. -/
theorem C7_set_attribute_witness :
    Device.set_attribute (-9) =
      RustRet.value (Except.error (IoErr.rawOs 9)) ∧
    Device.set_attribute 4 = RustRet.aborted :=
  ⟨by simpa using (C7_set_attribute (-9)).2.2.1 (by decide),
   (C7_set_attribute 4).2.2.2 (by decide)⟩

/-! ### Device sysnum (src/udev/device.rs lines 167-175) -/

/-- `u64::from_str` on the text of the native sysnum field: a nonempty
string of decimal digits parses to its value when it fits in 64 bits;
anything else (empty, non-digit characters, overflow) is a parse error,
modelled as `none`. -/
def u64_from_str (s : String) : Option Nat :=
  let cs := s.toList
  if cs.isEmpty then none
  else if cs.all Char.isDigit then
    let n := cs.foldl (fun acc c => acc * 10 + (c.toNat - 48)) 0
    if n < 2 ^ 64 then some n else none
  else none

/-- Modelled from the spec: the native `udev_device_get_sysnum` field is
not computed in this repository (it lives in the external registry
service); per the spec, `sysnum()` "parses a numeric suffix from the
device name", with `"wlan3"` yielding `"3"`, `"usb12"` yielding `"12"` and
`"lo"` yielding no field.  We model the field as the maximal trailing run
of decimal digits of the device name, absent when the name ends in a
non-digit. -/
def udev_device_get_sysnum (sysname : String) : Option String :=
  let suffix := ((sysname.toList.reverse.takeWhile Char.isDigit)).reverse
  if suffix.isEmpty then none else some (String.mk suffix)

/-- The Rust-side body of `Device::sysnum` as a function of the native
sysnum field (device.rs lines 168-174): absent field stays absent, a
present field is parsed with `u64::from_str`, and a parse error is mapped
to absent. -/
def sysnum_of_field (field : Option String) : Option Nat :=
  match field with
  | some n =>
      match u64_from_str n with
      | some i => some i
      | none => none
  | none => none

/-- `Device::sysnum` (device.rs lines 167-175) over the modelled native
field of a device with the given name. -/
def Device.sysnum (sysname : String) : Option Nat :=
  sysnum_of_field (udev_device_get_sysnum sysname)

/-- C8: `sysnum()` applies the trailing-digit suffix rule to the device
name — `"wlan3"` gives 3, `"usb12"` gives 12, `"lo"` gives absent — and in
general returns absent when the native sysnum field is absent or its text
does not parse as a non-negative integer; a parse failure is absorbed as
absent, never surfaced as an error. -/
theorem C8_sysnum (s : String) :
    Device.sysnum "wlan3" = some 3 ∧
    Device.sysnum "usb12" = some 12 ∧
    Device.sysnum "lo" = none ∧
    sysnum_of_field none = none ∧
    (u64_from_str s = none → sysnum_of_field (some s) = none) ∧
    (∀ i, u64_from_str s = some i → sysnum_of_field (some s) = some i) := by
  refine ⟨by decide, by decide, by decide, rfl, ?_, ?_⟩
  · intro h; simp [sysnum_of_field, h]
  · intro i h; simp [sysnum_of_field, h]

/-- Witness for C8 at a concrete malformed field: the text `"12ab"` does
not parse, and the device's sysnum is absent rather than an error. -/
theorem C8_sysnum_witness :
    u64_from_str "12ab" = none ∧ sysnum_of_field (some "12ab") = none :=
  ⟨by decide, (C8_sysnum "12ab").2.2.2.2.1 (by decide)⟩

/-! ### Reference-count balance (src/udev/device.rs)

The external registry's handles are reference counted (spec section 6).
We instrument that contract: the state of the external service is the
reference count of every device handle, `udev_device_ref` /
`udev_device_unref` bump it by plus/minus one, `udev_device_get_parent`
returns a borrowed pointer without touching any count, and the owned-result
lookups (`udev_device_new_from_syspath` and friends) hand out a fresh
reference, i.e. count the returned handle up by one.  Device handles are
naturals; counts are integers so that a deficit is visible. -/

/-- Instrumented state of the external service: each handle's reference
count. -/
def RCState : Type := Nat → Int

/-- Adjust one handle's count by `d`. -/
def RCState.bump (h : Nat) (d : Int) (s : RCState) : RCState :=
  fun x => if x = h then s x + d else s x

/-- `udev_device_ref`: takes one more reference on a non-null handle and
returns the same pointer; on null it is a no-op returning null (libudev's
`udev_device_ref(NULL)` behaviour, relied on by device.rs line 75). -/
def udev_device_ref (p : Option Nat) (s : RCState) : Option Nat × RCState :=
  match p with
  | none => (none, s)
  | some h => (some h, RCState.bump h 1 s)

/-- `udev_device_unref`: release one reference. -/
def udev_device_unref (h : Nat) (s : RCState) : RCState :=
  RCState.bump h (-1) s

/-- `udev_device_get_parent`: returns a borrowed pointer to the parent
(none when there is no parent); no reference count changes. -/
def udev_device_get_parent (parentOf : Nat → Option Nat) (h : Nat)
    (s : RCState) : Option Nat × RCState :=
  (parentOf h, s)

/-- Modelled from the spec: `udev_device_new_from_syspath` is external to
src/; per the handle protocol of spec section 6 every retrieval function
"returns a valid reference-counted pointer or null", so a successful
lookup hands the caller an owned reference, counting the resolved handle
up by one. -/
def udev_device_new_from_syspath (resolve : String → Option Nat)
    (path : String) (s : RCState) : Option Nat × RCState :=
  match resolve path with
  | none => (none, s)
  | some h => (some h, RCState.bump h 1 s)

/-- The native effect of the closure inside `Device::parent` (device.rs
lines 74-76): `udev_device_ref(udev_device_get_parent(dev))`. -/
def parentConstruct (parentOf : Nat → Option Nat) (d : Nat) (s : RCState) :
    Option Nat × RCState :=
  let r := udev_device_get_parent parentOf d s
  udev_device_ref r.1 r.2

/-- `impl Drop for Device` (device.rs lines 248-252): release exactly one
reference on the wrapped handle. -/
def Device.drop (h : Nat) (s : RCState) : RCState :=
  udev_device_unref h s

/-- Construct `n` Devices through the parent path of a fixed device. -/
def parentConstructN (parentOf : Nat → Option Nat) (d : Nat) :
    Nat → RCState → RCState
  | 0, s => s
  | n + 1, s => parentConstructN parentOf d n (parentConstruct parentOf d s).2

/-- Destroy `n` Devices all wrapping handle `h`. -/
def dropN (h : Nat) : Nat → RCState → RCState
  | 0, s => s
  | n + 1, s => dropN h n (Device.drop h s)

theorem parentConstructN_count (parentOf : Nat → Option Nat) (d h : Nat)
    (hp : parentOf d = some h) (n : Nat) (s : RCState) :
    parentConstructN parentOf d n s h = s h + n := by
  induction n generalizing s with
  | zero => simp [parentConstructN]
  | succ n ih =>
      have : (parentConstruct parentOf d s).2 h = s h + 1 := by
        simp [parentConstruct, udev_device_get_parent, hp, udev_device_ref,
          RCState.bump]
      simp only [parentConstructN, ih, this]
      push_cast
      ring

theorem dropN_count (h : Nat) (n : Nat) (s : RCState) :
    dropN h n s h = s h - n := by
  induction n generalizing s with
  | zero => simp [dropN]
  | succ n ih =>
      have : Device.drop h s h = s h - 1 := by
        simp [Device.drop, udev_device_unref, RCState.bump]
        ring
      simp only [dropN, ih, this]
      push_cast
      ring

/-- C3: every Device construction path takes exactly one reference on the
underlying handle — the parent path via the explicit `udev_device_ref`
call, the context lookup path by owning the reference the native lookup
produces — and `Drop` releases exactly one; hence building `n` Devices on
a handle and then destroying all `n` leaves the external reference count
exactly where it started.  Counts of unrelated handles are never touched. -/
theorem C3_refcount_balance (parentOf : Nat → Option Nat)
    (resolve : String → Option Nat) (d h x : Nat) (path : String)
    (s : RCState) (n : Nat) :
    (parentOf d = some h →
      (parentConstruct parentOf d s).1 = some h ∧
      (parentConstruct parentOf d s).2 h = s h + 1 ∧
      (x ≠ h → (parentConstruct parentOf d s).2 x = s x)) ∧
    (resolve path = some h →
      (udev_device_new_from_syspath resolve path s).1 = some h ∧
      (udev_device_new_from_syspath resolve path s).2 h = s h + 1 ∧
      (x ≠ h → (udev_device_new_from_syspath resolve path s).2 x = s x)) ∧
    (Device.drop h s h = s h - 1 ∧ (x ≠ h → Device.drop h s x = s x)) ∧
    (parentOf d = some h →
      dropN h n (parentConstructN parentOf d n s) h = s h) := by
  refine ⟨?_, ?_, ⟨?_, ?_⟩, ?_⟩
  · intro hp
    refine ⟨?_, ?_, ?_⟩
    · simp [parentConstruct, udev_device_get_parent, hp, udev_device_ref]
    · simp [parentConstruct, udev_device_get_parent, hp, udev_device_ref,
        RCState.bump]
    · intro hx
      simp [parentConstruct, udev_device_get_parent, hp, udev_device_ref,
        RCState.bump, hx]
  · intro hr
    refine ⟨?_, ?_, ?_⟩
    · simp [udev_device_new_from_syspath, hr]
    · simp [udev_device_new_from_syspath, hr, RCState.bump]
    · intro hx
      simp [udev_device_new_from_syspath, hr, RCState.bump, hx]
  · simp [Device.drop, udev_device_unref, RCState.bump]
    ring
  · intro hx
    simp [Device.drop, udev_device_unref, RCState.bump, hx]
  · intro hp
    rw [dropN_count, parentConstructN_count parentOf d h hp]
    ring

/-- Witness for C3 at a concrete instrumented state: on a handle whose
count starts at 5, building 3 parent Devices and destroying all 3 lands
the count back on 5 (and the single parent construction counts 5 up to
6). -/
theorem C3_refcount_balance_witness :
    (parentConstruct (fun _ => some 2) 1 (fun _ => 5)).2 2 = 6 ∧
    dropN 2 3 (parentConstructN (fun _ => some 2) 1 3 (fun _ => 5)) 2 = 5 := by
  have h := C3_refcount_balance (fun _ => some 2) (fun _ => none) 1 2 0 "p"
    (fun _ => 5) 3
  exact ⟨by rw [(h.1 rfl).2.1]; norm_num, by rw [h.2.2.2 rfl]⟩

/-! ### Monitor event loop (src/udev/monitor.rs lines 141-183)

`udev_monitor_receive_device` is a blocking native call classified with
`check_errno_mut` on every attempt.  A run of the monitor is described by
the behaviour of each attempt: `natRecv i` is the native call made on the
i-th attempt, again as a function from the errno it observes to the device
pointer it returns and the errno it leaves.  The loop in
`MonitorIterator::next` is unrolled with explicit fuel; running out of fuel
means the loop is still going (still blocked/retrying), not that the Rust
function returned. -/

/-- The fields of a received native device that the monitor reads:
`udev_device_get_action` and `udev_device_get_seqnum`. -/
structure NativeDevice where
  action : String
  seqnum : Nat
deriving DecidableEq, Repr

/-- `monitor::Action` (monitor.rs lines 36-44). -/
inductive Action where
  | Add
  | Remove
  | Change
  | Move
  | Online
  | Offline
  | Other (s : String)
deriving DecidableEq, Repr

/-- `impl FromStr for Action` (monitor.rs lines 141-156); the Rust
implementation never fails (unrecognized strings are preserved under
`Other`), so the `Result` wrapper is dropped. -/
def Action.fromStr (s : String) : Action :=
  if s = "add" then Action.Add
  else if s = "remove" then Action.Remove
  else if s = "change" then Action.Change
  else if s = "move" then Action.Move
  else if s = "online" then Action.Online
  else if s = "offline" then Action.Offline
  else Action.Other s

/-- `monitor::Event` (monitor.rs lines 46-49). -/
structure Event where
  action : Action
  seqnum : Nat
deriving DecidableEq, Repr

/-- Observable status of the `MonitorIterator::next` loop after a bounded
number of attempts: the Rust function returned `r` (its `Option<Item>`
result), the process aborted inside the classifier, or the loop is still
running. -/
inductive MonitorStep where
  | ret (r : Option (Event × NativeDevice))
  | aborts
  | blocked
deriving DecidableEq, Repr

/-- `MonitorIterator::next` (monitor.rs lines 162-181): loop forever; on
each attempt classify `udev_monitor_receive_device`; only an
`Ok(Some(dev))` outcome returns, yielding `Some((Event, Device))` with the
action string parsed and the sequence number read; every other returned
outcome falls through to the next attempt.  The errno left by one attempt
is the errno the next attempt starts from (and is cleared there by the
classifier). -/
def monitorNext (natRecv : Nat → Int → Option NativeDevice × Int) :
    Nat → Nat → Int → MonitorStep
  | _, 0, _ => MonitorStep.blocked
  | i, fuel + 1, e0 =>
      match check_errno_mut (natRecv i) e0 with
      | (CheckResult.ok (some dev), _) =>
          MonitorStep.ret
            (some ({ action := Action.fromStr dev.action,
                     seqnum := dev.seqnum }, dev))
      | (CheckResult.oomAbort, _) => MonitorStep.aborts
      | (_, e1) => monitorNext natRecv (i + 1) fuel e1

theorem monitorNext_ne_ret_none
    (natRecv : Nat → Int → Option NativeDevice × Int) :
    ∀ (fuel i : Nat) (e0 : Int),
      monitorNext natRecv i fuel e0 ≠ MonitorStep.ret none := by
  intro fuel
  induction fuel with
  | zero => intro i e0; simp [monitorNext]
  | succ fuel ih =>
      intro i e0
      rcases hr : check_errno_mut (natRecv i) e0 with ⟨r, e1⟩
      rcases r with v | c
      · rcases v with _ | dev
        · simpa [monitorNext, hr] using ih (i + 1) e1
        · simp [monitorNext, hr]
      · simpa [monitorNext, hr] using ih (i + 1) e1
      · simp [monitorNext, hr]

theorem monitorNext_ret_some
    (natRecv : Nat → Int → Option NativeDevice × Int) :
    ∀ (fuel i : Nat) (e0 : Int) (ev : Event) (dev : NativeDevice),
      monitorNext natRecv i fuel e0 = MonitorStep.ret (some (ev, dev)) →
      ∃ j e, i ≤ j ∧
        (check_errno_mut (natRecv j) e).1 = CheckResult.ok (some dev) ∧
        ev = { action := Action.fromStr dev.action, seqnum := dev.seqnum } := by
  intro fuel
  induction fuel with
  | zero => intro i e0 ev dev h; simp [monitorNext] at h
  | succ fuel ih =>
      intro i e0 ev dev h
      rcases hr : check_errno_mut (natRecv i) e0 with ⟨r, e1⟩
      rcases r with v | c
      · rcases v with _ | dev'
        · rw [monitorNext, hr] at h
          obtain ⟨j, e, hij, hc, hev⟩ := ih (i + 1) e1 ev dev h
          exact ⟨j, e, le_trans (Nat.le_succ i) hij, hc, hev⟩
        · rw [monitorNext, hr] at h
          simp only [MonitorStep.ret.injEq, Option.some.injEq, Prod.mk.injEq] at h
          obtain ⟨hev, hdev⟩ := h
          subst hdev
          exact ⟨i, e0, le_refl i, by simp [hr], hev.symm⟩
      · rw [monitorNext, hr] at h
        obtain ⟨j, e, hij, hc, hev⟩ := ih (i + 1) e1 ev dev h
        exact ⟨j, e, le_trans (Nat.le_succ i) hij, hc, hev⟩
      · rw [monitorNext, hr] at h
        exact absurd h (by simp)

/-- C4: the monitor event loop never signals end-of-sequence — for every
behaviour of the receive attempts and any amount of fuel, `next` never
returns `None`; on a `SystemError` outcome of one attempt it silently
moves on to the next attempt (no error surfaced); and whenever it does
return, the returned item comes from an attempt whose classified receive
actually produced a device, with the event built from that device's action
string and sequence number. -/
theorem C4_monitor_no_end (natRecv : Nat → Int → Option NativeDevice × Int)
    (i fuel : Nat) (e0 : Int) :
    monitorNext natRecv i fuel e0 ≠ MonitorStep.ret none ∧
    (∀ c, (check_errno_mut (natRecv i) e0).1 = CheckResult.err c →
      monitorNext natRecv i (fuel + 1) e0 =
        monitorNext natRecv (i + 1) fuel (check_errno_mut (natRecv i) e0).2) ∧
    (∀ ev dev,
      monitorNext natRecv i fuel e0 = MonitorStep.ret (some (ev, dev)) →
      ∃ j e, i ≤ j ∧
        (check_errno_mut (natRecv j) e).1 = CheckResult.ok (some dev) ∧
        ev = { action := Action.fromStr dev.action, seqnum := dev.seqnum }) := by
  refine ⟨monitorNext_ne_ret_none natRecv fuel i e0, ?_,
    fun ev dev h => monitorNext_ret_some natRecv fuel i e0 ev dev h⟩
  intro c hc
  rcases hr : check_errno_mut (natRecv i) e0 with ⟨r, e1⟩
  rw [hr] at hc
  simp only at hc
  subst hc
  simp [monitorNext, hr]

/-- Witness for C4 at a concrete run: the first attempt fails with errno
13, so the loop retries from attempt 1 with no error surfaced; the second
attempt delivers a device and the loop returns it. -/
theorem C4_monitor_no_end_witness :
    monitorNext
        (fun i _ => if i = 0 then ((none : Option NativeDevice), (13 : Int))
          else (some { action := "add", seqnum := 5 }, 0)) 0 2 0 =
      monitorNext
        (fun i _ => if i = 0 then ((none : Option NativeDevice), (13 : Int))
          else (some { action := "add", seqnum := 5 }, 0)) 1 1 13 :=
  ((C4_monitor_no_end
      (fun i _ => if i = 0 then ((none : Option NativeDevice), (13 : Int))
        else (some { action := "add", seqnum := 5 }, 0)) 0 1 0).2.1 13
    (by decide))

/-- C10: the loop also silently retries on the `NotFound` outcome (null
receive result with errno 0), exactly as on a system error: any returned
outcome of the classified receive other than a delivered device makes the
loop continue with nothing yielded and nothing reported, and an
(Event, Device) pair is yielded only for an attempt whose classified
receive was `Ok(Some(dev))`. -/
theorem C10_monitor_retries_notfound
    (natRecv : Nat → Int → Option NativeDevice × Int) (i fuel : Nat)
    (e0 : Int) :
    (∀ r, (r = CheckResult.ok (none : Option NativeDevice) ∨
        ∃ c, r = CheckResult.err c) →
      (check_errno_mut (natRecv i) e0).1 = r →
      monitorNext natRecv i (fuel + 1) e0 =
        monitorNext natRecv (i + 1) fuel (check_errno_mut (natRecv i) e0).2) ∧
    (∀ ev dev,
      monitorNext natRecv i fuel e0 = MonitorStep.ret (some (ev, dev)) →
      ∃ j e, i ≤ j ∧
        (check_errno_mut (natRecv j) e).1 = CheckResult.ok (some dev)) := by
  constructor
  · rintro r (rfl | ⟨c, rfl⟩) hc <;>
    · rcases hr : check_errno_mut (natRecv i) e0 with ⟨r', e1⟩
      rw [hr] at hc
      simp only at hc
      subst hc
      simp [monitorNext, hr]
  · intro ev dev h
    obtain ⟨j, e, hij, hc, _⟩ := monitorNext_ret_some natRecv fuel i e0 ev dev h
    exact ⟨j, e, hij, hc⟩

/-- Witness for C10 at a concrete run: the first attempt comes back null
with errno 0 (the `NotFound` outcome) and the loop silently moves on to
attempt 1. -/
theorem C10_monitor_retries_notfound_witness :
    monitorNext (fun _ _ => ((none : Option NativeDevice), (0 : Int))) 0 3 0 =
      monitorNext (fun _ _ => ((none : Option NativeDevice), (0 : Int))) 1 2 0 :=
  (C10_monitor_retries_notfound
      (fun _ _ => ((none : Option NativeDevice), (0 : Int))) 0 2 0).1
    (CheckResult.ok none) (Or.inl rfl) (by decide)

/-! ### Monitor state machine (src/udev/monitor.rs lines 63-131)

The native monitor handle carries the state the spec's `Configuring` /
`Enabled` machine talks about: `udev_monitor_enable_receiving` sets the
enabled flag (called from `Monitor::iter`, monitor.rs line 125) and the
filter calls append match rules (spec section 6, filter protocol:
"multiple calls are additive; a clear operation resets").  The Rust
wrapper performs no state check of its own: each filter method takes the
monitor and hands it back after the unconditional native call (its only
failure handling is `util::handle_error` on the native status), and `iter`
takes the monitor by shared borrow, leaving the same value usable — and
the filter methods callable — after the iterator is gone. -/

/-- State of a native monitor handle: whether receiving has been enabled,
plus the accumulated subsystem/devtype and tag match rules. -/
structure MonitorModel where
  enabled : Bool
  subsystemFilters : List (String × Option String)
  tagFilters : List String
deriving DecidableEq, Repr

/-- A freshly created monitor (`udev::Udev::create_monitor`): receiving
not yet enabled, no filters. -/
def monitorNew : MonitorModel :=
  { enabled := false, subsystemFilters := [], tagFilters := [] }

/-- `Monitor::filter_by_subsystem` (monitor.rs lines 73-81): add one
subsystem match rule (devtype null) through the native call, with no check
of the monitor's state, and return the monitor. -/
def MonitorModel.filter_by_subsystem (m : MonitorModel) (subsystem : String) :
    MonitorModel :=
  { m with subsystemFilters := m.subsystemFilters ++ [(subsystem, none)] }

/-- `Monitor::filter_by_subsystem_devtype` (monitor.rs lines 87-96): add
one subsystem/devtype match rule, state unchecked. -/
def MonitorModel.filter_by_subsystem_devtype (m : MonitorModel)
    (subsystem devtype : String) : MonitorModel :=
  { m with subsystemFilters := m.subsystemFilters ++ [(subsystem, some devtype)] }

/-- `Monitor::filter_by_tag` (monitor.rs lines 100-106): add one tag match
rule, state unchecked. -/
def MonitorModel.filter_by_tag (m : MonitorModel) (tag : String) :
    MonitorModel :=
  { m with tagFilters := m.tagFilters ++ [tag] }

/-- `Monitor::clear_filters` (monitor.rs lines 109-114): remove every
rule, state unchecked. -/
def MonitorModel.clear_filters (m : MonitorModel) : MonitorModel :=
  { m with subsystemFilters := [], tagFilters := [] }

/-- `Monitor::iter` (monitor.rs lines 120-130): call
`udev_monitor_enable_receiving` on the handle and hand out an iterator.
The method takes `&self` — a shared borrow, not ownership — so the monitor
value itself survives and is returned unchanged apart from the native
enabled flag. -/
def MonitorModel.iter (m : MonitorModel) : MonitorModel :=
  { m with enabled := true }

/-- C9 counterexample: configuring an already-enabled monitor is
expressible and silently accepted.  Enable a fresh monitor by requesting
its event iterator, then call `filter_by_subsystem` on it: the call is
accepted, appends the match rule exactly as in the configuring phase, and
leaves the monitor enabled — it is neither unrepresentable nor rejected. -/
theorem C9_counterexample :
    (monitorNew.iter).enabled = true ∧
    (monitorNew.iter).filter_by_subsystem "usb" =
      { enabled := true, subsystemFilters := [("usb", none)],
        tagFilters := [] } := by
  constructor
  · rfl
  · rfl

/-- C9 amended: once a monitor has transitioned to `Enabled` (first
request to iterate events), filter calls remain representable and are
silently accepted — each filter or clear call behaves exactly as in the
configuring phase regardless of the enabled flag, which it leaves
untouched; `iter` borrows rather than consumes the monitor, so nothing
rejects or prevents configuring an already-enabled monitor. -/
theorem C9_filters_after_enable (m : MonitorModel) (s d t : String) :
    (m.iter).enabled = true ∧
    m.filter_by_subsystem s =
      { m with subsystemFilters := m.subsystemFilters ++ [(s, none)] } ∧
    m.filter_by_subsystem_devtype s d =
      { m with subsystemFilters := m.subsystemFilters ++ [(s, some d)] } ∧
    m.filter_by_tag t = { m with tagFilters := m.tagFilters ++ [t] } ∧
    m.clear_filters = { m with subsystemFilters := [], tagFilters := [] } ∧
    (m.filter_by_subsystem s).enabled = m.enabled ∧
    (m.filter_by_subsystem_devtype s d).enabled = m.enabled ∧
    (m.filter_by_tag t).enabled = m.enabled ∧
    (m.clear_filters).enabled = m.enabled :=
  ⟨rfl, rfl, rfl, rfl, rfl, rfl, rfl, rfl, rfl⟩

end UdevRs
